import Mathlib

/-!
Shallow embedding of the MSE record system (src/main.py): record payload
normalization, date parsing, coded-value mapping and spreadsheet report
generation, together with theorems checking the specification claims.

Python values relevant to the core are modelled by `PyValue`; Python
strings are modelled by `String` with all operations defined on the
underlying character lists, dates by `PyDate`, and dictionaries by
association lists with update-in-place semantics.
-/

/-- A calendar date as produced by `datetime.strptime(...).date()`. -/
structure PyDate where
  year : Nat
  month : Nat
  day : Nat
deriving DecidableEq, Repr

/-- Gregorian leap-year rule used by the Python `datetime` module. -/
def isLeap (y : Nat) : Bool :=
  y % 4 == 0 && (y % 100 != 0 || y % 400 == 0)

/-- Number of days in a month, as enforced by the `datetime.date` constructor. -/
def daysInMonth (y m : Nat) : Nat :=
  if m = 2 then (if isLeap y then 29 else 28)
  else if m = 4 ∨ m = 6 ∨ m = 9 ∨ m = 11 then 30
  else 31

/-- The dates representable by `datetime.date` with a four-digit year. -/
def ValidPyDate (d : PyDate) : Prop :=
  1 ≤ d.year ∧ d.year ≤ 9999 ∧ 1 ≤ d.month ∧ d.month ≤ 12 ∧
    1 ≤ d.day ∧ d.day ≤ daysInMonth d.year d.month

instance (d : PyDate) : Decidable (ValidPyDate d) := by
  unfold ValidPyDate; infer_instance

/-- Split a character list on a separator character, like Python `str.split(sep)`:
the result always has one more part than there are separator occurrences. -/
def splitOnChar (sep : Char) : List Char → List (List Char)
  | [] => [[]]
  | c :: rest =>
    if c = sep then [] :: splitOnChar sep rest
    else
      match splitOnChar sep rest with
      | [] => [[c]]
      | p :: ps => (c :: p) :: ps

/-- Numeric value of a list of decimal digit characters. -/
def digitsToNat (l : List Char) : Nat :=
  l.foldl (fun a c => a * 10 + (c.toNat - 48)) 0

/-- All characters are decimal digits. -/
def allDigits (l : List Char) : Bool := l.all (·.isDigit)

/-- The `%Y` component of `strptime`: exactly four digit characters. -/
def pY (l : List Char) : Option Nat :=
  if l.length = 4 ∧ allDigits l = true then some (digitsToNat l) else none

/-- The `%m` and `%d` components of `strptime`: one or two digit characters whose
value lies in `1..bound` (`bound` is 12 for months and 31 for days). -/
def pMD (bound : Nat) (l : List Char) : Option Nat :=
  if (l.length = 1 ∨ l.length = 2) ∧ allDigits l = true then
    let v := digitsToNat l
    if 1 ≤ v ∧ v ≤ bound then some v else none
  else none

/-- Field order of the three date formats used by the source. -/
inductive DateOrder where
  | ymd
  | dmy
  | mdy
deriving DecidableEq, Repr

/-- Exactly three parts, as needed by a two-separator format. -/
def parts3 : List (List Char) → Option (List Char × List Char × List Char)
  | [a, b, c] => some (a, b, c)
  | _ => none

/-- Final range validation performed by the `datetime.date` constructor
(month and day lower and upper bounds are already enforced by the
component patterns, so only the year lower bound and the month length
remain to be checked). -/
def mkPyDate (y? m? d? : Option Nat) : Option PyDate :=
  match y?, m?, d? with
  | some y, some m, some d =>
    if 1 ≤ y ∧ d ≤ daysInMonth y m then some ⟨y, m, d⟩ else none
  | _, _, _ => none

/-- `datetime.strptime(s, fmt).date()` for the three formats of the source,
which all consist of two components separated by a fixed character. Returns
`none` where Python raises `ValueError`. -/
def strptime3 (sep : Char) (ord : DateOrder) (s : String) : Option PyDate :=
  (parts3 (splitOnChar sep s.data)).bind fun abc =>
    match ord with
    | .ymd => mkPyDate (pY abc.1) (pMD 12 abc.2.1) (pMD 31 abc.2.2)
    | .dmy => mkPyDate (pY abc.2.2) (pMD 12 abc.2.1) (pMD 31 abc.1)
    | .mdy => mkPyDate (pY abc.2.2) (pMD 12 abc.1) (pMD 31 abc.2.1)

/-- The date-string parsing loop of `create_or_update_record`: formats
`%Y-%m-%d`, `%d.%m.%Y`, `%m/%d/%Y` are tried in this order and the first
successful parse wins. -/
def parse_date_formats (s : String) : Option PyDate :=
  match strptime3 '-' .ymd s with
  | some d => some d
  | none =>
    match strptime3 '.' .dmy s with
    | some d => some d
    | none => strptime3 '/' .mdy s

/-- Two-digit zero-padded decimal rendering (`%d`, `%m` of `strftime`). -/
def pad2 (n : Nat) : List Char :=
  [Nat.digitChar (n / 10 % 10), Nat.digitChar (n % 10)]

/-- Four-digit zero-padded decimal rendering (`%Y` of `strftime`). -/
def pad4 (n : Nat) : List Char :=
  [Nat.digitChar (n / 1000 % 10), Nat.digitChar (n / 100 % 10),
   Nat.digitChar (n / 10 % 10), Nat.digitChar (n % 10)]

/-- Character list of a two-separator date string. -/
def renderSepChars (sep : Char) (a b c : List Char) : List Char :=
  a ++ sep :: (b ++ sep :: c)

/-- The `YYYY-MM-DD` string form of a date (also Python `str(date)`). -/
def renderYMD (d : PyDate) : String :=
  ⟨renderSepChars '-' (pad4 d.year) (pad2 d.month) (pad2 d.day)⟩

/-- The `DD.MM.YYYY` string form of a date (`strftime("%d.%m.%Y")`). -/
def renderDotDMY (d : PyDate) : String :=
  ⟨renderSepChars '.' (pad2 d.day) (pad2 d.month) (pad4 d.year)⟩

/-- The `MM/DD/YYYY` string form of a date. -/
def renderMDY (d : PyDate) : String :=
  ⟨renderSepChars '/' (pad2 d.month) (pad2 d.day) (pad4 d.year)⟩

/-- Python values appearing in record payloads and database rows: `None`,
strings, dates and lists of strings. -/
inductive PyValue where
  | none
  | str (s : String)
  | date (d : PyDate)
  | list (l : List String)
deriving DecidableEq, Repr

/-- Python truthiness (`if value:`) on the modelled values. -/
def pyTruthy : PyValue → Bool
  | .none => false
  | .str s => s != ""
  | .date _ => true
  | .list l => !l.isEmpty

/-- The Python test `value in (None, "")`. -/
def isNoneOrEmptyStr (v : PyValue) : Prop :=
  v = PyValue.none ∨ v = PyValue.str ""

instance (v : PyValue) : Decidable (isNoneOrEmptyStr v) := by
  unfold isNoneOrEmptyStr; infer_instance

/-- A Python dictionary with string keys, as an ordered association list. -/
abbrev RecordDict := List (String × PyValue)

/-- Python `d.get(k)`: the stored value, or `None` when the key is absent. -/
def pyGet (d : RecordDict) (k : String) : PyValue :=
  match d.find? (fun p => p.1 == k) with
  | some p => p.2
  | _ => PyValue.none

/-- Python `d.get(k, dflt)` with an arbitrary default. -/
def pyGetD (d : RecordDict) (k : String) (dflt : PyValue) : PyValue :=
  match d.find? (fun p => p.1 == k) with
  | some p => p.2
  | _ => dflt

/-- Python `d[k] = v`: overwrite in place if the key exists, else append. -/
def dictSet (d : RecordDict) (k : String) (v : PyValue) : RecordDict :=
  if d.any (fun p => p.1 == k) then
    d.map (fun p => if p.1 == k then (k, v) else p)
  else d ++ [(k, v)]

/-- Python `str.lower()` (ASCII, which covers all payload keys). -/
def pyLower (s : String) : String := ⟨s.data.map Char.toLower⟩

/-- The camelCase to snake_case conversion of `create_or_update_record`:
each uppercase letter is replaced by an underscore and its lowercase form,
then leading underscores are stripped. -/
def camelToSnake (key : String) : String :=
  ⟨(key.data.flatMap (fun c => if c.isUpper then ['_', c.toLower] else [c])).dropWhile (· = '_')⟩

/-- The three expert-field aliases collapsed onto canonical keys. -/
def applyExpertAliases (key : String) : String :=
  if key = "expertDocumentFormat" then "documentFormat"
  else if key = "expertPurpose" then "purpose"
  else if key = "pdoDevelopedExpert" then "pdoDeveloped"
  else key

/-- The four snake_case date field names treated by the date branch. -/
def dateFieldNames : List String := ["mse_date", "decision_date", "reg_date", "birth_date"]

/-- Python `",".join(l)` at the character level. -/
def joinCommaChars : List (List Char) → List Char
  | [] => []
  | [x] => x
  | x :: xs => x ++ ',' :: joinCommaChars xs

/-- Python `",".join(l)` on strings. -/
def pyJoinComma (l : List String) : String := ⟨joinCommaChars (l.map (·.data))⟩

/-- Validation failures raised by record normalization, carrying the data
that the corresponding `HTTPException` message interpolates. -/
inductive ValidationError where
  | badDate (field : String) (raw : String)
  | missingMseDate
deriving DecidableEq, Repr

/-- One iteration of the key-translation loop of `create_or_update_record`:
skips the `bureaNumber` key, collapses expert aliases, converts the key to
snake_case, then normalizes the value according to the field kind. Returns
the `(snake_key, value)` pair to store, `none` for a skipped key, or the
validation failure for an unparseable date string. -/
def transformEntry (key : String) (value : PyValue) :
    Except ValidationError (Option (String × PyValue)) :=
  if pyLower key = "bureanumber" then .ok Option.none
  else if camelToSnake (applyExpertAliases key) ∈ dateFieldNames then
    match value with
    | .none => .ok (some (camelToSnake (applyExpertAliases key), PyValue.none))
    | .str s =>
      if s = "" then .ok (some (camelToSnake (applyExpertAliases key), PyValue.none))
      else
        match parse_date_formats s with
        | some d => .ok (some (camelToSnake (applyExpertAliases key), PyValue.date d))
        | Option.none => .error (.badDate (applyExpertAliases key) s)
    | .date d => .ok (some (camelToSnake (applyExpertAliases key), PyValue.date d))
    | .list l => .ok (some (camelToSnake (applyExpertAliases key), PyValue.list l))
  else if camelToSnake (applyExpertAliases key) = "special_marks" then
    match value with
    | .list l =>
      .ok (some ("special_marks", if l = [] then PyValue.none else PyValue.str (pyJoinComma l)))
    | _ =>
      .ok (some (camelToSnake (applyExpertAliases key),
        if isNoneOrEmptyStr value then PyValue.none else value))
  else
    .ok (some (camelToSnake (applyExpertAliases key),
      if isNoneOrEmptyStr value then PyValue.none else value))

/-- The full key-translation loop, filling the `transformed_data` dictionary
in payload order. -/
def transformPayloadAux (acc : RecordDict) :
    List (String × PyValue) → Except ValidationError RecordDict
  | [] => .ok acc
  | (k, v) :: rest =>
    match transformEntry k v with
    | .error e => .error e
    | .ok Option.none => transformPayloadAux acc rest
    | .ok (some (sk, v2)) => transformPayloadAux (dictSet acc sk v2) rest

/-- The key-translation and value-normalization stage of
`create_or_update_record` over a whole payload. -/
def create_or_update_record_transform (payload : List (String × PyValue)) :
    Except ValidationError RecordDict :=
  transformPayloadAux [] payload

/-- Python whitespace characters recognized by `str.split()` (ASCII set). -/
def pyIsSpace (c : Char) : Bool :=
  c == ' ' || c == '\t' || c == '\n' || c == '\r' || c == Char.ofNat 11 || c == Char.ofNat 12

/-- One step of whitespace tokenization, consumed by a right fold. -/
def wsSplitStep (c : Char) (acc : List (List Char)) : List (List Char) :=
  if pyIsSpace c then [] :: acc
  else
    match acc with
    | [] => [[c]]
    | t :: ts => (c :: t) :: ts

/-- Python `s.split()`: split on whitespace runs, dropping empty tokens. -/
def pyWhitespaceSplit (s : String) : List String :=
  ((s.data.foldr wsSplitStep []).filter (fun t => !t.isEmpty)).map (fun t => ⟨t⟩)

/-- Python `sep.join(l)`. -/
def pyJoinWith (sep : String) : List String → String
  | [] => ""
  | [x] => x
  | x :: rest => x ++ sep ++ pyJoinWith sep rest

/-- The full-name cleanup of `create_or_update_record`:
`" ".join(full_name.split())` when the stored full name is a non-empty
string (the field is a text column, so only string values occur). -/
def normalizeFullName (td : RecordDict) : RecordDict :=
  match pyGet td "full_name" with
  | .str s =>
    if s ≠ "" then dictSet td "full_name" (PyValue.str (pyJoinWith " " (pyWhitespaceSplit s)))
    else td
  | _ => td

/-- The pure normalization performed by `create_or_update_record` before it
touches the database: key translation and value normalization, then the
mandatory examination-date check, then full-name whitespace cleanup. -/
def create_or_update_record_normalize (payload : List (String × PyValue)) :
    Except ValidationError RecordDict :=
  match create_or_update_record_transform payload with
  | .error e => .error e
  | .ok td =>
    if pyTruthy (pyGet td "mse_date") = true then .ok (normalizeFullName td)
    else .error ValidationError.missingMseDate

/-- The payload keys that reach the date-normalization branch. -/
def dateInputKeys : List String :=
  ["mseDate", "decisionDate", "regDate", "birthDate",
   "mse_date", "decision_date", "reg_date", "birth_date"]

/-- A single-quote character, written by code point to keep source clean. -/
def squote : String := ⟨[Char.ofNat 39]⟩

/-- Lookup in a Python dictionary literal modelled as an association list. -/
def dictGetS {α : Type} (d : List (String × α)) (k : String) : Option α :=
  (d.find? (fun p => p.1 == k)).map (·.2)

/-- Python `{**a, **b}`: keys of `a` in order with values overridden by `b`,
followed by the keys of `b` not present in `a`. -/
def pyDictMerge {α : Type} (a b : List (String × α)) : List (String × α) :=
  a.map (fun p =>
    match dictGetS b p.1 with
    | some v => (p.1, v)
    | _ => p) ++
  b.filter (fun q => (dictGetS a q.1).isNone)

/-- Python `s.startswith(p)`. -/
def pyStartsWith (s p : String) : Bool := p.data.isPrefixOf s.data

def ageCategoryMapping : List (String × String) :=
  [("adult", "Взрослые"), ("child", "Дети")]

def specialMarksMapping : List (String × String) :=
  [("amputee", "Ампутант"),
   ("prisoner", "Лицо, находящееся в местах лишения свободы"),
   ("pni", "Лицо, находящееся в ПНИ (ДДИ)"),
   ("other_institution", "Лицо, находящееся в других стационарных учреждениях соцзащиты"),
   ("palliative", "Нуждающийся в паллиативной помощи"),
   ("new_region", "Житель новых регионов"),
   ("svo", "Участник СВО")]

def militaryRegistrationMapping : List (String × String) :=
  [("registered", "Состоящий на воинском учете"),
   ("obliged", "Не состоящий на воинском учете, но обязанный состоять"),
   ("applying", "Поступающий на воинский учет"),
   ("not_registered", "Не состоящий на воинском учете")]

def mseFormMapping : List (String × String) :=
  [("in_person", "Очно"), ("in_absentia", "Заочно")]

def mseFormChangeMapping : List (String × String) :=
  [("v", "В"), ("g", "Г"), ("d", "Д"), ("e", "Е"), ("zh", "Ж")]

def disabilityGroupMapping : List (String × String) :=
  [("first", "Первая"), ("second", "Вторая"), ("third", "Третья"), ("kri", "КРИ"),
   ("not_set", "Инвалидность не установлена"), ("supt_set", "Установление СУПТ"),
   ("supt_not_set", "СУПТ не установлена")]

def disabilityReasonMapping : List (String × String) :=
  [("general_disease", "Общее заболевание"), ("childhood", "Инвалидность с детства"),
   ("professional_disease", "Профессиональное заболевание"),
   ("work_injury", "Трудовое увечье"), ("military_injury", "Военная травма"),
   ("military_service", "Заболевание получено в период военной службы"),
   ("other", "Другое")]

def disabilityTermMapping : List (String × String) :=
  [("1_year", "1 год"), ("2_years", "2 года"), ("5_years", "5 лет"),
   ("until_14", "До 14 лет"), ("until_18", "До 18 лет"), ("indefinitely", "Бессрочно")]

def pdoDevelopedMapping : List (String × String) :=
  [("consent", "Получено согласие"), ("refusal", "Отказ")]

/-- The `COMMON_VALUE_MAPPINGS` table of the source (the previous and
current disability field triples use textually identical sub-tables). -/
def COMMON_VALUE_MAPPINGS : List (String × List (String × String)) :=
  [("age_category", ageCategoryMapping),
   ("special_marks", specialMarksMapping),
   ("military_registration", militaryRegistrationMapping),
   ("mse_form", mseFormMapping),
   ("mse_form_change", mseFormChangeMapping),
   ("prev_disability", disabilityGroupMapping),
   ("prev_disability_reason", disabilityReasonMapping),
   ("prev_disability_term", disabilityTermMapping),
   ("current_disability", disabilityGroupMapping),
   ("current_disability_reason", disabilityReasonMapping),
   ("current_disability_term", disabilityTermMapping),
   ("pdo_developed", pdoDevelopedMapping)]

def bureauDocumentFormatMapping : List (String × String) :=
  [("paper_direction", "Направление бумажное"),
   ("electronic_direction", "Направление в электронном виде"),
   ("paper_application", "Заявление бумажное"),
   ("epgu", "Заявление ЕПГУ")]

def bureauPurposeMapping : List (String × String) :=
  [("disability_group", "Группа инвалидности"),
   ("disabled_child", "Категория " ++ squote ++ "ребенок-инвалид" ++ squote),
   ("disability_reason", "Причина инвалидности"),
   ("disability_term", "Срок инвалидности"),
   ("supt", "Определение СУПТ"),
   ("ipra_development", "Разработка ИПРА"),
   ("prp_development", "Разработка ПРП"),
   ("death_reason", "Определение причины смерти"),
   ("care_need", "Определение нуждаемости в постоянном постороннем уходе"),
   ("new_certificate", "Выдача новой справки об инвалидности"),
   ("duplicate_certificate", "Выдача дубликата справки об инвалидности"),
   ("new_supt_certificate", "Выдача новой справки о СУПТ"),
   ("duplicate_supt_certificate", "Выдача дубликата справки о СУПТ"),
   ("ipra_changes", "Внесение изменений в ИПРА"),
   ("prp_changes", "Внесение изменений в ПРП")]

def mseTypeMapping : List (String × String) :=
  [("primary", "Первично"), ("repeat", "Повторно"), ("early_repeat", "Повторно (досрочно)")]

def ipraDirectionMapping : List (String × String) :=
  [("regular", "В очередной срок"),
   ("exclusively", "Исключительно для разработки ИПРА"),
   ("health_change", "Изменение состояния здоровья (повторно досрочно)")]

def ipraContainsTsrMapping : List (String × String) :=
  [("yes", "Да"), ("no", "Нет")]

def ipraChangesMapping : List (String × String) :=
  [("anthropometric", "Антропометрические данные"),
   ("personal", "Персональные данные"),
   ("tsr_specs", "Уточнение технических характеристик ТСР"),
   ("errors", "Исправление технических ошибок"),
   ("maternal_capital", "Материнский капитал")]

/-- The `BUREAU_VALUE_MAPPINGS` table of the source. -/
def BUREAU_VALUE_MAPPINGS : List (String × List (String × String)) :=
  [("document_format", bureauDocumentFormatMapping),
   ("purpose", bureauPurposeMapping),
   ("mse_type", mseTypeMapping),
   ("ipra_direction", ipraDirectionMapping),
   ("ipra_contains_tsr", ipraContainsTsrMapping),
   ("ipra_changes", ipraChangesMapping)]

def expertDocumentFormatMapping : List (String × String) :=
  [("paper_application", "Заявление бумажное"), ("epgu", "Заявление ЕПГУ")]

def procedureTypeMapping : List (String × String) :=
  [("appeal", "Обжалование"), ("control", "Контроль"), ("pdo", "ПДО")]

def expertPurposeMapping : List (String × String) :=
  [("disability_group", "Группа инвалидности"),
   ("disabled_child", "Категория ребенок-инвалид"),
   ("disability_reason", "Причина инвалидности"),
   ("disability_term", "Срок инвалидности"),
   ("supt", "Определение СУПТ"),
   ("care_need", "Определение нуждаемости в постороннем уходе"),
   ("death_reason", "Определение причины смерти"),
   ("ipra_development", "Разработка ИПРА"),
   ("prp_development", "Разработка ПРП"),
   ("other", "Иное")]

def decisionChangedPartMapping : List (String × String) :=
  [("disability_group", "Группы инвалидности"),
   ("disabled_child", "Категории ребенок-инвалид"),
   ("disability_term", "Срока инвалидности"),
   ("disability_reason", "Причины инвалидности"),
   ("ipra_development", "Разработки ИПРА"),
   ("supt", "Степени УПТ"),
   ("prp_development", "ПРП"),
   ("other", "Другие")]

def yesOnlyMapping : List (String × String) := [("yes", "Да")]

/-- The `EXPERT_VALUE_MAPPINGS` table of the source (the `tsr_changed`,
`sfr_appeal` and `changed` sub-tables are textually identical). -/
def EXPERT_VALUE_MAPPINGS : List (String × List (String × String)) :=
  [("document_format", expertDocumentFormatMapping),
   ("procedure_type", procedureTypeMapping),
   ("purpose", expertPurposeMapping),
   ("mse_type", mseTypeMapping),
   ("decision_changed_part", decisionChangedPartMapping),
   ("tsr_changed", yesOnlyMapping),
   ("sfr_appeal", yesOnlyMapping),
   ("changed", yesOnlyMapping)]

/-- `get_value_mappings`: select the merged taxonomy by unit-identifier kind. -/
def get_value_mappings (bureau_number : String) :
    List (String × List (String × String)) :=
  if pyStartsWith bureau_number "expert_" = true then
    pyDictMerge COMMON_VALUE_MAPPINGS EXPERT_VALUE_MAPPINGS
  else
    pyDictMerge COMMON_VALUE_MAPPINGS BUREAU_VALUE_MAPPINGS

/-- Python `s.strip()` (ASCII whitespace). -/
def pyStrip (s : String) : String :=
  ⟨((s.data.dropWhile pyIsSpace).reverse.dropWhile pyIsSpace).reverse⟩

/-- Python `s.split(sep)` for a one-character separator. -/
def pySplit (s : String) (sep : Char) : List String :=
  (splitOnChar sep s.data).map (fun l => ⟨l⟩)

/-- Python `c in s` for a single character. -/
def pyContains (s : String) (c : Char) : Bool := s.data.contains c

/-- `map_value`: render one stored value through the resolved taxonomy.
Null or empty values render as the empty string; a value containing commas
is split, the tokens trimmed, empty tokens dropped, each token mapped
independently with unknown codes passing through, and rejoined with a
comma and space; otherwise the single code is looked up with pass-through
on a miss or an unmapped field. -/
def map_value (bureau_number field_name : String) (value : Option String) : String :=
  match value with
  | some v =>
    if v = "" then ""
    else
      match dictGetS (get_value_mappings bureau_number) field_name with
      | some mapping =>
        if pyContains v ',' then
          pyJoinWith ", " ((pySplit v ',').filterMap (fun t =>
            if pyStrip t = "" then Option.none
            else some ((dictGetS mapping (pyStrip t)).getD (pyStrip t))))
        else (dictGetS mapping v).getD v
      | _ => v
  | _ => ""

/-- No token of the comma-separated serialization is empty. -/
def noEmptyTokens (s : String) : Bool :=
  (splitOnChar ',' s.data).all (fun t => !t.isEmpty)

/-- Python `str(value)` on the modelled values (`str(None)`, identity on
strings, ISO form of dates, bracketed quoted form of lists). -/
def pyShow : PyValue → String
  | .none => "None"
  | .str s => s
  | .date d => renderYMD d
  | .list l => "[" ++ pyJoinWith ", " (l.map (fun t => squote ++ t ++ squote)) ++ "]"

/-- `format_excel_date`: render a stored value for a report cell.
`None` becomes the empty string, a date is formatted `DD.MM.YYYY`, a
string is re-parsed through the three accepted formats and reformatted on
success, and any other value (including a malformed date string) falls
through to its own string form. -/
def format_excel_date (v : PyValue) : String :=
  match v with
  | .none => ""
  | .date d => renderDotDMY d
  | .str s =>
    match parse_date_formats s with
    | some d => renderDotDMY d
    | _ => s
  | .list l => pyShow (PyValue.list l)

/-- Cell values written by the sheet builder: a Python value, or the 1-based
row sequence number written in single-unit mode. -/
inductive CellVal where
  | pv (v : PyValue)
  | int (n : Nat)
deriving DecidableEq, Repr

/-- `str(cell.value)`, as used by the column auto-sizing loop. -/
def cellStr : CellVal → String
  | .pv v => pyShow v
  | .int n => toString n

/-- The styling state of one cell (font boldness, alignment, borders). -/
structure CellStyle where
  bold : Bool
  horizontal : String
  vertical : String
  wrapText : Bool
  bordered : Bool
deriving DecidableEq, Repr

/-- openpyxl defaults: no bold, no alignment, no border. -/
def defaultCellStyle : CellStyle :=
  { bold := false, horizontal := "none", vertical := "none", wrapText := false, bordered := false }

/-- `HEADER_FONT` with `HEADER_ALIGNMENT` and `THIN_BORDER` of the source. -/
def headerCellStyle : CellStyle :=
  { bold := true, horizontal := "center", vertical := "center", wrapText := true, bordered := true }

/-- Style of the "Нет записей" placeholder cell (centered, bordered, not bold). -/
def placeholderCellStyle : CellStyle :=
  { bold := false, horizontal := "center", vertical := "center", wrapText := true, bordered := true }

/-- Style of the empty filler cells of the placeholder row (border only). -/
def placeholderFillerStyle : CellStyle :=
  { bold := false, horizontal := "none", vertical := "none", wrapText := false, bordered := true }

/-- One worksheet cell: value and style. -/
structure SCell where
  value : CellVal
  style : CellStyle
deriving DecidableEq, Repr

/-- A built worksheet: the written rows, per-column widths (in tenths of a
character unit, so the exact value of `width * 1.2` stays representable),
merged ranges, frozen panes and the auto-filter range. -/
structure Sheet where
  rows : List (List SCell)
  colWidthTenths : List Nat
  merges : List (Nat × Nat × Nat × Nat)
  freezePanes : Option String
  autoFilterRef : Option String
deriving DecidableEq, Repr

/-- The 23 header columns shared by every unit type; the first is the
source label in consolidated mode and a sequence number otherwise. -/
def commonHeaders (is_all_records : Bool) : List String :=
  [(if is_all_records then "Источник" else "№ п/п"),
   "ФИО",
   "Дата рождения",
   "СНИЛС",
   "Дата проведения МСЭ",
   "Дата вынесения решения",
   "Дата регистрации направления",
   "Возрастная категория",
   "Особые отметки",
   "Воинский учет",
   "Формат документа",
   "Цель освидетельствования",
   "МСЭ проводится",
   "Форма проведения МСЭ",
   "Изменение формы проведения МСЭ",
   "Инвалидность (предыдущая МСЭ)",
   "Причина инвалидности (предыдущая МСЭ)",
   "Срок инвалидности (предыдущая МСЭ)",
   "Инвалидность (текущая МСЭ)",
   "Причина инвалидности (текущая МСЭ)",
   "Срок инвалидности (текущая МСЭ)",
   "Диагноз основной (с шифром МКБ)",
   "ПДО разработана"]

/-- The five extra header columns of expert-panel sheets. -/
def expertHeaderColumns : List String :=
  ["Порядок проведения МСЭ",
   "Решение изменено в части",
   "Из них изменено в части ТСР",
   "МСЭ по обращению ОСФР",
   "Из них изменено"]

/-- The three extra header columns of bureau and omo sheets. -/
def bureauHeaderColumns : List String :=
  ["Разработана ИПРА по направлению",
   "ИПРА содержит ТСР",
   "Внесение изменений в ИПРА"]

/-- The full header row of a sheet. -/
def worksheetHeaders (is_all_records is_expert : Bool) : List String :=
  commonHeaders is_all_records ++
    (if is_expert then expertHeaderColumns else bureauHeaderColumns)

/-- The `record.get("bureau_number", "")` access (the column is declared
NOT NULL, so only string values occur). -/
def recBureauNumber (r : RecordDict) : String :=
  match pyGetD r "bureau_number" (PyValue.str "") with
  | .str s => s
  | _ => ""

/-- Is the batch an expert batch: inspect the first record, default false. -/
def batchIsExpert : List RecordDict → Bool
  | [] => false
  | r :: _ => pyStartsWith (recBureauNumber r) "expert_"

/-- The value passed to `map_value` (an `Optional[str]` in the source;
classification columns are text columns, so only strings and nulls occur). -/
def asOptStr : PyValue → Option String
  | .str s => some s
  | _ => Option.none

/-- Python `a or b`. -/
def pyOr (a b : PyValue) : PyValue := if pyTruthy a then a else b

/-- The `record.get(camelKey) or record.get(snake_key)` access pattern. -/
def recField2 (r : RecordDict) (k1 k2 : String) : PyValue :=
  pyOr (pyGet r k1) (pyGet r k2)

/-- Python `s.split(sep)[1]`. -/
def afterUnderscore (s : String) : String := (pySplit s '_').getD 1 ""

/-- Source label written in the first column of the consolidated sheet. -/
def sourceLabel (bn : String) : String :=
  if pyStartsWith bn "bureau_" then "Бюро №" ++ afterUnderscore bn
  else if pyStartsWith bn "expert_" then "ЭС №" ++ afterUnderscore bn
  else bn

/-- The special-marks cell: split the stored string on commas, map each
stripped non-empty token through `map_value`, and join with "; ". -/
def specialMarksCellText (bn : String) (r : RecordDict) : String :=
  pyJoinWith "; " ((pySplit
    (match pyOr (recField2 r "specialMarks" "special_marks") (PyValue.str "") with
     | .str s => s
     | _ => "") ',').filterMap (fun mark =>
      if pyStrip mark = "" then Option.none
      else some (map_value bn "special_marks" (some (pyStrip mark)))))

/-- The cell values of one data row, in column order: the 23 common columns
followed by the expert or bureau suffix columns. -/
def dataRowCells (is_all_records is_expert : Bool) (seq : Nat) (r : RecordDict) :
    List CellVal :=
  [(if is_all_records then CellVal.pv (PyValue.str (sourceLabel (recBureauNumber r)))
    else CellVal.int seq),
   CellVal.pv (pyOr (recField2 r "fullName" "full_name") (PyValue.str "")),
   CellVal.pv (PyValue.str (format_excel_date (recField2 r "birthDate" "birth_date"))),
   CellVal.pv (pyGetD r "snils" (PyValue.str "")),
   CellVal.pv (PyValue.str (format_excel_date (recField2 r "mseDate" "mse_date"))),
   CellVal.pv (PyValue.str (format_excel_date (recField2 r "decisionDate" "decision_date"))),
   CellVal.pv (PyValue.str (format_excel_date (recField2 r "regDate" "reg_date"))),
   CellVal.pv (PyValue.str (map_value (recBureauNumber r) "age_category"
     (asOptStr (recField2 r "ageCategory" "age_category")))),
   CellVal.pv (PyValue.str (specialMarksCellText (recBureauNumber r) r)),
   CellVal.pv (PyValue.str (map_value (recBureauNumber r) "military_registration"
     (asOptStr (recField2 r "militaryRegistration" "military_registration")))),
   CellVal.pv (PyValue.str (map_value (recBureauNumber r) "document_format"
     (asOptStr (recField2 r "documentFormat" "document_format")))),
   CellVal.pv (PyValue.str (map_value (recBureauNumber r) "purpose"
     (asOptStr (pyGet r "purpose")))),
   CellVal.pv (PyValue.str (map_value (recBureauNumber r) "mse_type"
     (asOptStr (recField2 r "mseType" "mse_type")))),
   CellVal.pv (PyValue.str (map_value (recBureauNumber r) "mse_form"
     (asOptStr (recField2 r "mseForm" "mse_form")))),
   CellVal.pv (PyValue.str (map_value (recBureauNumber r) "mse_form_change"
     (asOptStr (recField2 r "mseFormChange" "mse_form_change")))),
   CellVal.pv (PyValue.str (map_value (recBureauNumber r) "prev_disability"
     (asOptStr (recField2 r "prevDisability" "prev_disability")))),
   CellVal.pv (PyValue.str (map_value (recBureauNumber r) "prev_disability_reason"
     (asOptStr (recField2 r "prevDisabilityReason" "prev_disability_reason")))),
   CellVal.pv (PyValue.str (map_value (recBureauNumber r) "prev_disability_term"
     (asOptStr (recField2 r "prevDisabilityTerm" "prev_disability_term")))),
   CellVal.pv (PyValue.str (map_value (recBureauNumber r) "current_disability"
     (asOptStr (recField2 r "currentDisability" "current_disability")))),
   CellVal.pv (PyValue.str (map_value (recBureauNumber r) "current_disability_reason"
     (asOptStr (recField2 r "currentDisabilityReason" "current_disability_reason")))),
   CellVal.pv (PyValue.str (map_value (recBureauNumber r) "current_disability_term"
     (asOptStr (recField2 r "currentDisabilityTerm" "current_disability_term")))),
   CellVal.pv (pyOr (recField2 r "mainDiagnosis" "main_diagnosis") (PyValue.str "")),
   CellVal.pv (PyValue.str (map_value (recBureauNumber r) "pdo_developed"
     (asOptStr (recField2 r "pdoDeveloped" "pdo_developed"))))] ++
  (if is_expert then
    [CellVal.pv (PyValue.str (map_value (recBureauNumber r) "procedure_type"
       (asOptStr (recField2 r "procedureType" "procedure_type")))),
     CellVal.pv (PyValue.str (map_value (recBureauNumber r) "decision_changed_part"
       (asOptStr (recField2 r "decisionChangedPart" "decision_changed_part")))),
     CellVal.pv (PyValue.str (map_value (recBureauNumber r) "tsr_changed"
       (asOptStr (recField2 r "tsrChanged" "tsr_changed")))),
     CellVal.pv (PyValue.str (map_value (recBureauNumber r) "sfr_appeal"
       (asOptStr (recField2 r "sfrAppeal" "sfr_appeal")))),
     CellVal.pv (PyValue.str (map_value (recBureauNumber r) "changed"
       (asOptStr (pyGet r "changed"))))]
   else
    [CellVal.pv (PyValue.str (map_value (recBureauNumber r) "ipra_direction"
       (asOptStr (recField2 r "ipraDirection" "ipra_direction")))),
     CellVal.pv (PyValue.str (map_value (recBureauNumber r) "ipra_contains_tsr"
       (asOptStr (recField2 r "ipraContainsTsr" "ipra_contains_tsr")))),
     CellVal.pv (PyValue.str (map_value (recBureauNumber r) "ipra_changes"
       (asOptStr (recField2 r "ipraChanges" "ipra_changes"))))])

/-- The header row with header styling applied. -/
def mkHeaderRow (headers : List String) : List SCell :=
  headers.map (fun h => ⟨CellVal.pv (PyValue.str h), headerCellStyle⟩)

/-- The placeholder row of an empty sheet: the "no records" cell followed by
empty bordered filler cells. -/
def placeholderRow (n : Nat) : List SCell :=
  ⟨CellVal.pv (PyValue.str "Нет записей"), placeholderCellStyle⟩ ::
    List.replicate (n - 1) ⟨CellVal.pv (PyValue.str ""), placeholderFillerStyle⟩

/-- The final styling pass over every written cell: alignment is replaced by
`CELL_ALIGNMENT` (left, vertically centered, wrapped) and a thin border is
applied; the font is left untouched. -/
def overwriteStyle (c : SCell) : SCell :=
  ⟨c.value, { bold := c.style.bold, horizontal := "left", vertical := "center",
              wrapText := true, bordered := true }⟩

/-- Python `enumerate(records, n)`. -/
def pyEnumerate (n : Nat) : List RecordDict → List (Nat × RecordDict)
  | [] => []
  | r :: rest => (n, r) :: pyEnumerate (n + 1) rest

/-- The rows as first written: styled header row, then raw data rows. -/
def worksheetRawRows (is_all_records is_expert : Bool) (records : List RecordDict) :
    List (List SCell) :=
  mkHeaderRow (worksheetHeaders is_all_records is_expert) ::
    (pyEnumerate 1 records).map (fun p =>
      (dataRowCells is_all_records is_expert p.1 p.2).map
        (fun v => ⟨v, defaultCellStyle⟩))

/-- The rows after the final styling pass over the whole used range. -/
def worksheetStyledRows (is_all_records is_expert : Bool) (records : List RecordDict) :
    List (List SCell) :=
  (worksheetRawRows is_all_records is_expert records).map (fun row => row.map overwriteStyle)

/-- The default cell used by out-of-range indexing (never hit on a built
sheet, whose rows all have the full column count). -/
def blankSCell : SCell := ⟨CellVal.pv (PyValue.str ""), defaultCellStyle⟩

/-- Length of the longest rendered string in column `j` (header included). -/
def colMaxLen (rows : List (List SCell)) (j : Nat) : Nat :=
  rows.foldl (fun acc row => max acc (cellStr (row.getD j blankSCell).value).length) 0

/-- The auto-sizing rule of the source, `min((max_length + 2) * 1.2, 50)`,
in exact tenths of a character unit. -/
def autoWidthTenths (rows : List (List SCell)) (j : Nat) : Nat :=
  min ((colMaxLen rows j + 2) * 12) 500

/-- `openpyxl.utils.get_column_letter` for columns up to 702, which covers
every sheet built here. -/
def get_column_letter (n : Nat) : String :=
  if n = 0 then ""
  else if n ≤ 26 then ⟨[Char.ofNat (65 + (n - 1))]⟩
  else ⟨[Char.ofNat (65 + ((n - 1) / 26 - 1)), Char.ofNat (65 + (n - 1) % 26)]⟩

/-- `create_excel_worksheet`: build one report sheet from a record batch.
An empty batch short-circuits to the header row plus the merged placeholder
row with default widths of 15 and no freeze or filter; otherwise the data
rows are written, all cells restyled, columns auto-sized, the filter set
over the used range and the header row frozen. -/
def create_excel_worksheet (records : List RecordDict) (is_all_records : Bool) : Sheet :=
  if records.isEmpty then
    { rows := [mkHeaderRow (worksheetHeaders is_all_records (batchIsExpert records)),
               placeholderRow (worksheetHeaders is_all_records (batchIsExpert records)).length]
      colWidthTenths :=
        List.replicate (worksheetHeaders is_all_records (batchIsExpert records)).length 150
      merges := [(2, 1, 2, 1)]
      freezePanes := Option.none
      autoFilterRef := Option.none }
  else
    { rows := worksheetStyledRows is_all_records (batchIsExpert records) records
      colWidthTenths :=
        (List.range (worksheetHeaders is_all_records (batchIsExpert records)).length).map
          (autoWidthTenths (worksheetStyledRows is_all_records (batchIsExpert records) records))
      merges := []
      freezePanes := some "A2"
      autoFilterRef := some ("A1:" ++
        get_column_letter (worksheetHeaders is_all_records (batchIsExpert records)).length ++
        toString (records.length + 1)) }

/-- Configured number of bureaus (`Settings.bureau_count`). -/
def settings_bureau_count : Nat := 42

/-- Configured excluded bureau numbers (`Settings.excluded_bureaus`). -/
def settings_excluded_bureaus : List Nat := [25, 26, 27, 31, 41]

/-- Configured expert panel numbers (`Settings.experts`). -/
def settings_experts : List Nat := [1, 2, 3, 5, 8, 9]

/-- Python `s[:31]`, the sheet-name truncation. -/
def pyTake31 (s : String) : String := ⟨s.data.take 31⟩

/-- The bureau numbers iterated by the consolidated export:
`range(1, bureau_count + 1)` with the excluded set skipped, in ascending
order. -/
def bureauSheetNums : List Nat :=
  (List.range' 1 settings_bureau_count).filter
    (fun i => !(settings_excluded_bureaus.contains i))

/-- The sheets of the consolidated (`"all"`) workbook, in creation order:
the all-records sheet first, then one sheet per bureau in ascending order,
then one sheet per expert panel in configured order, each unit sheet
holding only that unit's records. -/
def create_excel_workbook_allsheets (records : List RecordDict) : List (String × Sheet) :=
  ("Все записи", create_excel_worksheet records true) ::
    (bureauSheetNums.map (fun i =>
      (pyTake31 ("Бюро №" ++ toString i),
       create_excel_worksheet
         (records.filter (fun r =>
           pyGet r "bureau_number" == PyValue.str ("bureau_" ++ toString i)))
         false)) ++
     settings_experts.map (fun e =>
      (pyTake31 ("ЭС №" ++ toString e),
       create_excel_worksheet
         (records.filter (fun r =>
           pyGet r "bureau_number" == PyValue.str ("expert_" ++ toString e)))
         false)))

/-- `create_excel_workbook`: the consolidated multi-sheet workbook for the
`"all"` selector, else a single sheet named from the unit identifier. -/
def create_excel_workbook (records : List RecordDict) (bureau_number : String) :
    List (String × Sheet) :=
  if bureau_number = "all" then create_excel_workbook_allsheets records
  else
    [(if pyStartsWith bureau_number "bureau_" then
        pyTake31 ("Бюро №" ++ afterUnderscore bureau_number)
      else if pyStartsWith bureau_number "expert_" then
        pyTake31 ("ЭС №" ++ afterUnderscore bureau_number)
      else pyTake31 "Записи",
      create_excel_worksheet records false)]

/-- The expected names of the 44 sheets of the consolidated workbook. -/
def allModeSheetNames : List String :=
  ["Все записи",
   "Бюро №1", "Бюро №2", "Бюро №3", "Бюро №4", "Бюро №5", "Бюро №6", "Бюро №7",
   "Бюро №8", "Бюро №9", "Бюро №10", "Бюро №11", "Бюро №12", "Бюро №13", "Бюро №14",
   "Бюро №15", "Бюро №16", "Бюро №17", "Бюро №18", "Бюро №19", "Бюро №20", "Бюро №21",
   "Бюро №22", "Бюро №23", "Бюро №24", "Бюро №28", "Бюро №29", "Бюро №30", "Бюро №32",
   "Бюро №33", "Бюро №34", "Бюро №35", "Бюро №36", "Бюро №37", "Бюро №38", "Бюро №39",
   "Бюро №40", "Бюро №42",
   "ЭС №1", "ЭС №2", "ЭС №3", "ЭС №5", "ЭС №8", "ЭС №9"]

/-- The concrete single-record batch used by counterexamples. -/
def recEx : RecordDict := [("bureau_number", PyValue.str "bureau_1")]

/-- The column-width formula as the specification words it — the longest
rendered length times the 1.2 factor, plus 2 padding units, capped at 50 —
in tenths of a character unit. -/
def specClaimedWidthTenths (len : Nat) : Nat := min (len * 12 + 20) 500

theorem digitChar_spec :
    ∀ r, r < 10 → (Nat.digitChar r).isDigit = true ∧ (Nat.digitChar r).toNat = 48 + r := by
  decide

theorem mem_pad2_isDigit {c : Char} {n : Nat} (h : c ∈ pad2 n) : c.isDigit = true := by
  simp only [pad2, List.mem_cons, List.not_mem_nil, or_false] at h
  rcases h with h | h <;>
    exact h ▸ (digitChar_spec _ (Nat.mod_lt _ (by norm_num))).1

theorem mem_pad4_isDigit {c : Char} {n : Nat} (h : c ∈ pad4 n) : c.isDigit = true := by
  simp only [pad4, List.mem_cons, List.not_mem_nil, or_false] at h
  rcases h with h | h | h | h <;>
    exact h ▸ (digitChar_spec _ (Nat.mod_lt _ (by norm_num))).1

theorem not_mem_pad2 {sep : Char} (hs : sep.isDigit = false) (n : Nat) : sep ∉ pad2 n := by
  intro h
  rw [mem_pad2_isDigit h] at hs
  exact Bool.noConfusion hs

theorem not_mem_pad4 {sep : Char} (hs : sep.isDigit = false) (n : Nat) : sep ∉ pad4 n := by
  intro h
  rw [mem_pad4_isDigit h] at hs
  exact Bool.noConfusion hs

theorem splitOnChar_ne_nil (sep : Char) (l : List Char) : splitOnChar sep l ≠ [] := by
  induction l with
  | nil => simp [splitOnChar]
  | cons c rest ih =>
    simp only [splitOnChar]
    split
    · simp
    · cases hr : splitOnChar sep rest with
      | nil => exact absurd hr ih
      | cons p ps => simp [hr]

theorem splitOnChar_of_not_mem (sep : Char) (l : List Char) (h : sep ∉ l) :
    splitOnChar sep l = [l] := by
  induction l with
  | nil => rfl
  | cons c rest ih =>
    have hc : c ≠ sep := fun hceq => h (hceq ▸ List.mem_cons_self c rest)
    have hrest : sep ∉ rest := fun hm => h (List.mem_cons_of_mem c hm)
    simp only [splitOnChar, if_neg hc, ih hrest]

theorem splitOnChar_append (sep : Char) (a b : List Char) (h : sep ∉ a) :
    splitOnChar sep (a ++ sep :: b) = a :: splitOnChar sep b := by
  induction a with
  | nil => simp [splitOnChar]
  | cons c a ih =>
    have hc : c ≠ sep := fun hceq => h (hceq ▸ List.mem_cons_self c a)
    have ha : sep ∉ a := fun hm => h (List.mem_cons_of_mem c hm)
    rw [List.cons_append]
    simp only [splitOnChar, if_neg hc, ih ha]

theorem splitOnChar_renderSep (sep : Char) (a b c : List Char)
    (ha : sep ∉ a) (hb : sep ∉ b) (hc : sep ∉ c) :
    splitOnChar sep (renderSepChars sep a b c) = [a, b, c] := by
  rw [renderSepChars, splitOnChar_append sep a _ ha, splitOnChar_append sep b _ hb,
    splitOnChar_of_not_mem sep c hc]

theorem not_mem_renderSep {sep2 : Char} (sep : Char) (a b c : List Char)
    (hne : sep2 ≠ sep) (hs : sep2.isDigit = false)
    (hda : ∀ x ∈ a, x.isDigit = true) (hdb : ∀ x ∈ b, x.isDigit = true)
    (hdc : ∀ x ∈ c, x.isDigit = true) :
    sep2 ∉ renderSepChars sep a b c := by
  intro h
  simp only [renderSepChars, List.mem_append, List.mem_cons] at h
  rcases h with h | h | h | h | h
  · rw [hda sep2 h] at hs; exact Bool.noConfusion hs
  · exact hne h
  · rw [hdb sep2 h] at hs; exact Bool.noConfusion hs
  · exact hne h
  · rw [hdc sep2 h] at hs; exact Bool.noConfusion hs

theorem allDigits_pad2 (n : Nat) : allDigits (pad2 n) = true :=
  List.all_eq_true.mpr fun _ hc => mem_pad2_isDigit hc

theorem allDigits_pad4 (n : Nat) : allDigits (pad4 n) = true :=
  List.all_eq_true.mpr fun _ hc => mem_pad4_isDigit hc

theorem digitsToNat_pad2 (n : Nat) (h : n < 100) : digitsToNat (pad2 n) = n := by
  have h1 := (digitChar_spec (n / 10 % 10) (Nat.mod_lt _ (by norm_num))).2
  have h2 := (digitChar_spec (n % 10) (Nat.mod_lt _ (by norm_num))).2
  simp only [pad2, digitsToNat, List.foldl, h1, h2]
  omega

theorem digitsToNat_pad4 (n : Nat) (h : n < 10000) : digitsToNat (pad4 n) = n := by
  have h1 := (digitChar_spec (n / 1000 % 10) (Nat.mod_lt _ (by norm_num))).2
  have h2 := (digitChar_spec (n / 100 % 10) (Nat.mod_lt _ (by norm_num))).2
  have h3 := (digitChar_spec (n / 10 % 10) (Nat.mod_lt _ (by norm_num))).2
  have h4 := (digitChar_spec (n % 10) (Nat.mod_lt _ (by norm_num))).2
  simp only [pad4, digitsToNat, List.foldl, h1, h2, h3, h4]
  omega

theorem pY_pad4 (y : Nat) (h : y < 10000) : pY (pad4 y) = some y := by
  rw [pY, if_pos ⟨by simp [pad4], allDigits_pad4 y⟩, digitsToNat_pad4 y h]

theorem pMD_pad2 (bound v : Nat) (h1 : 1 ≤ v) (h2 : v ≤ bound) (h3 : v < 100) :
    pMD bound (pad2 v) = some v := by
  rw [pMD, if_pos ⟨by simp [pad2], allDigits_pad2 v⟩]
  simp only [digitsToNat_pad2 v h3]
  rw [if_pos ⟨h1, h2⟩]

theorem daysInMonth_le_31 (y m : Nat) : daysInMonth y m ≤ 31 := by
  unfold daysInMonth
  split
  · split <;> norm_num
  · split <;> norm_num

theorem strptime3_eq_none (sep : Char) (ord : DateOrder) (s : String)
    (h : sep ∉ s.data) : strptime3 sep ord s = none := by
  rw [strptime3, splitOnChar_of_not_mem sep s.data h]
  rfl

theorem strptime3_render_ymd (d : PyDate) (h : ValidPyDate d) :
    strptime3 '-' .ymd (renderYMD d) = some d := by
  obtain ⟨h1, h2, h3, h4, h5, h6⟩ := h
  have hd31 : d.day ≤ 31 := le_trans h6 (daysInMonth_le_31 d.year d.month)
  have hsep : ('-' : Char).isDigit = false := by decide
  rw [strptime3]
  have hsplit : splitOnChar '-' (renderYMD d).data =
      [pad4 d.year, pad2 d.month, pad2 d.day] :=
    splitOnChar_renderSep '-' _ _ _ (not_mem_pad4 hsep _) (not_mem_pad2 hsep _)
      (not_mem_pad2 hsep _)
  rw [hsplit]
  show mkPyDate (pY (pad4 d.year)) (pMD 12 (pad2 d.month)) (pMD 31 (pad2 d.day)) = some d
  rw [pY_pad4 _ (by omega), pMD_pad2 12 _ h3 h4 (by omega),
    pMD_pad2 31 _ h5 (le_trans h6 (daysInMonth_le_31 _ _)) (by omega)]
  rw [mkPyDate, if_pos ⟨h1, h6⟩]

theorem strptime3_render_dmy (d : PyDate) (h : ValidPyDate d) :
    strptime3 '.' .dmy (renderDotDMY d) = some d := by
  obtain ⟨h1, h2, h3, h4, h5, h6⟩ := h
  have hd31 : d.day ≤ 31 := le_trans h6 (daysInMonth_le_31 d.year d.month)
  have hsep : ('.' : Char).isDigit = false := by decide
  rw [strptime3]
  have hsplit : splitOnChar '.' (renderDotDMY d).data =
      [pad2 d.day, pad2 d.month, pad4 d.year] :=
    splitOnChar_renderSep '.' _ _ _ (not_mem_pad2 hsep _) (not_mem_pad2 hsep _)
      (not_mem_pad4 hsep _)
  rw [hsplit]
  show mkPyDate (pY (pad4 d.year)) (pMD 12 (pad2 d.month)) (pMD 31 (pad2 d.day)) = some d
  rw [pY_pad4 _ (by omega), pMD_pad2 12 _ h3 h4 (by omega),
    pMD_pad2 31 _ h5 (le_trans h6 (daysInMonth_le_31 _ _)) (by omega)]
  rw [mkPyDate, if_pos ⟨h1, h6⟩]

theorem strptime3_render_mdy (d : PyDate) (h : ValidPyDate d) :
    strptime3 '/' .mdy (renderMDY d) = some d := by
  obtain ⟨h1, h2, h3, h4, h5, h6⟩ := h
  have hd31 : d.day ≤ 31 := le_trans h6 (daysInMonth_le_31 d.year d.month)
  have hsep : ('/' : Char).isDigit = false := by decide
  rw [strptime3]
  have hsplit : splitOnChar '/' (renderMDY d).data =
      [pad2 d.month, pad2 d.day, pad4 d.year] :=
    splitOnChar_renderSep '/' _ _ _ (not_mem_pad2 hsep _) (not_mem_pad2 hsep _)
      (not_mem_pad4 hsep _)
  rw [hsplit]
  show mkPyDate (pY (pad4 d.year)) (pMD 12 (pad2 d.month)) (pMD 31 (pad2 d.day)) = some d
  rw [pY_pad4 _ (by omega), pMD_pad2 12 _ h3 h4 (by omega),
    pMD_pad2 31 _ h5 (le_trans h6 (daysInMonth_le_31 _ _)) (by omega)]
  rw [mkPyDate, if_pos ⟨h1, h6⟩]

theorem parse_render_ymd (d : PyDate) (h : ValidPyDate d) :
    parse_date_formats (renderYMD d) = some d := by
  rw [parse_date_formats, strptime3_render_ymd d h]

theorem parse_render_dmy (d : PyDate) (h : ValidPyDate d) :
    parse_date_formats (renderDotDMY d) = some d := by
  have hnd : ('-' : Char) ∉ (renderDotDMY d).data :=
    not_mem_renderSep '.' _ _ _ (by decide) (by decide)
      (fun x hx => mem_pad2_isDigit hx) (fun x hx => mem_pad2_isDigit hx)
      (fun x hx => mem_pad4_isDigit hx)
  rw [parse_date_formats, strptime3_eq_none '-' .ymd _ hnd, strptime3_render_dmy d h]

theorem parse_render_mdy (d : PyDate) (h : ValidPyDate d) :
    parse_date_formats (renderMDY d) = some d := by
  have hnd : ('-' : Char) ∉ (renderMDY d).data :=
    not_mem_renderSep '/' _ _ _ (by decide) (by decide)
      (fun x hx => mem_pad2_isDigit hx) (fun x hx => mem_pad2_isDigit hx)
      (fun x hx => mem_pad4_isDigit hx)
  have hdot : ('.' : Char) ∉ (renderMDY d).data :=
    not_mem_renderSep '/' _ _ _ (by decide) (by decide)
      (fun x hx => mem_pad2_isDigit hx) (fun x hx => mem_pad2_isDigit hx)
      (fun x hx => mem_pad4_isDigit hx)
  rw [parse_date_formats, strptime3_eq_none '-' .ymd _ hnd,
    strptime3_eq_none '.' .dmy _ hdot, strptime3_render_mdy d h]

theorem parse_first_format_wins (s : String) (d : PyDate)
    (h : strptime3 '-' .ymd s = some d) : parse_date_formats s = some d := by
  rw [parse_date_formats, h]

theorem pyGet_map_update (d : RecordDict) (k k2 : String) (v : PyValue) (h : k2 ≠ k) :
    pyGet (d.map (fun p => if p.1 == k then (k, v) else p)) k2 = pyGet d k2 := by
  induction d with
  | nil => rfl
  | cons p rest ih =>
    obtain ⟨a, w⟩ := p
    by_cases hp : a = k
    · subst hp
      have h1 : (a == k2) = false := beq_eq_false_iff_ne.mpr (fun he => h he.symm)
      simp only [pyGet, List.map_cons, beq_self_eq_true, if_true, List.find?, h1] at ih ⊢
      exact ih
    · have h1 : (a == k) = false := beq_eq_false_iff_ne.mpr hp
      by_cases h2 : a = k2
      · subst h2
        simp [pyGet, List.find?, h1]
      · have h2b : (a == k2) = false := beq_eq_false_iff_ne.mpr h2
        simp only [pyGet, List.map_cons, h1, Bool.false_eq_true, if_false, List.find?, h2b]
          at ih ⊢
        exact ih

theorem pyGet_append_single_ne (d : RecordDict) (k k2 : String) (v : PyValue) (h : k2 ≠ k) :
    pyGet (d ++ [(k, v)]) k2 = pyGet d k2 := by
  induction d with
  | nil =>
    simp [pyGet, List.find?, beq_eq_false_iff_ne.mpr (fun he => h he.symm)]
  | cons p rest ih =>
    cases hb : (p.1 == k2) with
    | true => simp [pyGet, List.find?, hb]
    | false =>
      simp only [pyGet, List.cons_append, List.find?, hb] at ih ⊢
      exact ih

theorem pyGet_dictSet_ne (d : RecordDict) (k k2 : String) (v : PyValue) (h : k2 ≠ k) :
    pyGet (dictSet d k v) k2 = pyGet d k2 := by
  unfold dictSet
  split
  · exact pyGet_map_update d k k2 v h
  · exact pyGet_append_single_ne d k k2 v h

theorem pyGet_normalizeFullName (td : RecordDict) :
    pyGet (normalizeFullName td) "mse_date" = pyGet td "mse_date" := by
  unfold normalizeFullName
  split
  · split
    · exact pyGet_dictSet_ne td "full_name" "mse_date" _ (by decide)
    · rfl
  · rfl

/-- C1: a payload is accepted by normalization only with a truthy (non-null)
examination date, and whenever key translation succeeds but leaves the
`mse_date` entry falsy (absent, or normalized to `None`), normalization
fails with the validation error naming the examination-date field
("Обязательное поле 'Дата проведения МСЭ' не заполнено"); so no record
lacking an examination date is ever accepted for insert or update. -/
theorem claim_C1_exam_date_required :
    (∀ p td, create_or_update_record_normalize p = .ok td →
      pyTruthy (pyGet td "mse_date") = true) ∧
    (∀ p td, create_or_update_record_transform p = .ok td →
      pyTruthy (pyGet td "mse_date") = false →
      create_or_update_record_normalize p = .error ValidationError.missingMseDate) := by
  constructor
  · intro p td hok
    cases htr : create_or_update_record_transform p with
    | error e =>
      have heq : create_or_update_record_normalize p = .error e := by
        unfold create_or_update_record_normalize; rw [htr]
      rw [heq] at hok
      exact absurd hok (by simp)
    | ok td0 =>
      have heq : create_or_update_record_normalize p =
          (if pyTruthy (pyGet td0 "mse_date") = true then .ok (normalizeFullName td0)
           else .error ValidationError.missingMseDate) := by
        unfold create_or_update_record_normalize; rw [htr]
      rw [heq] at hok
      by_cases ht : pyTruthy (pyGet td0 "mse_date") = true
      · rw [if_pos ht] at hok
        injection hok with h2
        rw [← h2, pyGet_normalizeFullName]
        exact ht
      · rw [if_neg ht] at hok
        exact absurd hok (by simp)
  · intro p td htr hf
    have heq : create_or_update_record_normalize p =
        (if pyTruthy (pyGet td "mse_date") = true then .ok (normalizeFullName td)
         else .error ValidationError.missingMseDate) := by
      unfold create_or_update_record_normalize; rw [htr]
    rw [heq, if_neg (by rw [hf]; exact Bool.noConfusion)]

theorem transformEntry_dateField (key : String)
    (h1 : ¬pyLower key = "bureanumber")
    (h2 : applyExpertAliases key = key)
    (h3 : camelToSnake key ∈ dateFieldNames) (value : PyValue) :
    transformEntry key value =
      (match value with
       | .none => .ok (some (camelToSnake key, PyValue.none))
       | .str s =>
         if s = "" then .ok (some (camelToSnake key, PyValue.none))
         else
           match parse_date_formats s with
           | some d => .ok (some (camelToSnake key, PyValue.date d))
           | Option.none => .error (.badDate key s)
       | .date d => .ok (some (camelToSnake key, PyValue.date d))
       | .list l => .ok (some (camelToSnake key, PyValue.list l))) := by
  unfold transformEntry
  rw [h2, if_neg h1, if_pos h3]

/-- C2: for each date field key, a native date value passes through
unchanged; `None` and the empty string normalize to null; a non-empty
string is parsed by the three formats in their fixed order, a success
storing the parsed date and a failure of all three formats raising the
validation error that names the offending field and raw value; and every
valid calendar date rendered in any of the three accepted formats parses
back to that same date. -/
theorem claim_C2_date_field_normalization :
    (∀ key ∈ dateInputKeys, ∀ d : PyDate,
      transformEntry key (PyValue.date d) = .ok (some (camelToSnake key, PyValue.date d))) ∧
    (∀ key ∈ dateInputKeys,
      transformEntry key PyValue.none = .ok (some (camelToSnake key, PyValue.none)) ∧
      transformEntry key (PyValue.str "") = .ok (some (camelToSnake key, PyValue.none))) ∧
    (∀ key ∈ dateInputKeys, ∀ s : String, s ≠ "" → ∀ d : PyDate,
      parse_date_formats s = some d →
      transformEntry key (PyValue.str s) = .ok (some (camelToSnake key, PyValue.date d))) ∧
    (∀ key ∈ dateInputKeys, ∀ s : String, s ≠ "" →
      parse_date_formats s = Option.none →
      transformEntry key (PyValue.str s) = .error (ValidationError.badDate key s)) ∧
    (∀ d : PyDate, ValidPyDate d →
      parse_date_formats (renderYMD d) = some d ∧
      parse_date_formats (renderDotDMY d) = some d ∧
      parse_date_formats (renderMDY d) = some d) := by
  refine ⟨?_, ?_, ?_, ?_, ?_⟩
  · intro key hk d
    rw [transformEntry_dateField key (by fin_cases hk <;> decide)
      (by fin_cases hk <;> rfl) (by fin_cases hk <;> decide)]
  · intro key hk
    constructor
    · rw [transformEntry_dateField key (by fin_cases hk <;> decide)
        (by fin_cases hk <;> rfl) (by fin_cases hk <;> decide)]
    · rw [transformEntry_dateField key (by fin_cases hk <;> decide)
        (by fin_cases hk <;> rfl) (by fin_cases hk <;> decide)]
      rfl
  · intro key hk s hs d hp
    rw [transformEntry_dateField key (by fin_cases hk <;> decide)
      (by fin_cases hk <;> rfl) (by fin_cases hk <;> decide)]
    show (if s = "" then _ else _) = _
    rw [if_neg hs, hp]
  · intro key hk s hs hp
    rw [transformEntry_dateField key (by fin_cases hk <;> decide)
      (by fin_cases hk <;> rfl) (by fin_cases hk <;> decide)]
    show (if s = "" then _ else _) = _
    rw [if_neg hs, hp]
  · intro d hd
    exact ⟨parse_render_ymd d hd, parse_render_dmy d hd, parse_render_mdy d hd⟩

/-- Witness for C1 at a concrete payload: a payload with a valid examination
date is accepted with a truthy stored date, and one without it is rejected
with the examination-date error. -/
theorem claim_C1_exam_date_required_witness :
    pyTruthy (pyGet [("mse_date", PyValue.date ⟨2024, 1, 15⟩)] "mse_date") = true ∧
    create_or_update_record_normalize [("fullName", PyValue.str "Ivan Petrov")] =
      .error ValidationError.missingMseDate :=
  ⟨claim_C1_exam_date_required.1 [("mseDate", PyValue.str "2024-01-15")]
      [("mse_date", PyValue.date ⟨2024, 1, 15⟩)] (by rfl),
   claim_C1_exam_date_required.2 [("fullName", PyValue.str "Ivan Petrov")]
      [("full_name", PyValue.str "Ivan Petrov")] (by rfl) (by rfl)⟩

/-- Witness for C2 at concrete inputs: the same calendar date in all three
formats normalizes identically, and a malformed string fails naming the
field and value. -/
theorem claim_C2_date_field_normalization_witness :
    transformEntry "mseDate" (PyValue.str "2024-01-15") =
      .ok (some ("mse_date", PyValue.date ⟨2024, 1, 15⟩)) ∧
    transformEntry "mseDate" (PyValue.str "15.01.2024") =
      .ok (some ("mse_date", PyValue.date ⟨2024, 1, 15⟩)) ∧
    transformEntry "mseDate" (PyValue.str "01/15/2024") =
      .ok (some ("mse_date", PyValue.date ⟨2024, 1, 15⟩)) ∧
    transformEntry "birthDate" (PyValue.str "2024-13-01") =
      .error (ValidationError.badDate "birthDate" "2024-13-01") :=
  ⟨claim_C2_date_field_normalization.2.2.1 "mseDate" (by decide) "2024-01-15"
      (by decide) ⟨2024, 1, 15⟩ (by rfl),
   claim_C2_date_field_normalization.2.2.1 "mseDate" (by decide) "15.01.2024"
      (by decide) ⟨2024, 1, 15⟩ (by rfl),
   claim_C2_date_field_normalization.2.2.1 "mseDate" (by decide) "01/15/2024"
      (by decide) ⟨2024, 1, 15⟩ (by rfl),
   claim_C2_date_field_normalization.2.2.2.1 "birthDate" (by decide) "2024-13-01"
      (by decide) (by rfl)⟩

theorem get_value_mappings_expert (u : String) (h : pyStartsWith u "expert_" = true) :
    get_value_mappings u = pyDictMerge COMMON_VALUE_MAPPINGS EXPERT_VALUE_MAPPINGS := by
  unfold get_value_mappings
  rw [h]
  rfl

theorem get_value_mappings_bureau (u : String) (h : pyStartsWith u "expert_" = false) :
    get_value_mappings u = pyDictMerge COMMON_VALUE_MAPPINGS BUREAU_VALUE_MAPPINGS := by
  unfold get_value_mappings
  rw [h]
  rfl

theorem filterMap_strip_eq {β : Type} (g : String → String) (h : String → β) (l : List String) :
    l.filterMap (fun t => if g t = "" then Option.none else some (h (g t))) =
      ((l.map g).filter (fun t => t != "")).map h := by
  induction l with
  | nil => rfl
  | cons x xs ih =>
    by_cases hx : g x = ""
    · simp [List.filterMap_cons, List.filter_cons, hx, ih]
    · simp [List.filterMap_cons, List.filter_cons, hx, ih]

/-- C3: a null or empty raw value renders as the empty string for every
unit and field; for every field present in the resolved taxonomy, a raw
value containing a comma is rendered by splitting on commas, trimming each
token, dropping empty tokens, mapping each token independently with
unknown codes passing through unchanged, and rejoining with a comma and a
space; in particular the special-marks value "amputee,bogus_code" renders
as "Ампутант, bogus_code" for every unit identifier, order preserved. -/
theorem claim_C3_set_valued_rendering :
    (∀ u f, map_value u f Option.none = "" ∧ map_value u f (some "") = "") ∧
    (∀ u f v m, dictGetS (get_value_mappings u) f = some m →
      pyContains v ',' = true → v ≠ "" →
      map_value u f (some v) =
        pyJoinWith ", " ((((pySplit v ',').map pyStrip).filter (fun t => t != "")).map
          (fun t => (dictGetS m t).getD t))) ∧
    (∀ u, map_value u "special_marks" (some "amputee,bogus_code") = "Ампутант, bogus_code") := by
  refine ⟨fun u f => ⟨rfl, rfl⟩, ?_, ?_⟩
  · intro u f v m hm hc hv
    simp only [map_value]
    rw [if_neg hv, hm]
    show (if pyContains v ',' = true then _ else _) = _
    rw [if_pos hc]
    exact congrArg _ (filterMap_strip_eq pyStrip (fun t => (dictGetS m t).getD t) (pySplit v ','))
  · intro u
    cases hu : pyStartsWith u "expert_"
    · simp only [map_value]
      rw [get_value_mappings_bureau u hu]
      rfl
    · simp only [map_value]
      rw [get_value_mappings_expert u hu]
      rfl

/-- Witness for C3 at a concrete unit and raw value: the general set-valued
rendering law applied to special-marks of a bureau unit. -/
theorem claim_C3_set_valued_rendering_witness :
    map_value "bureau_3" "special_marks" (some "amputee,svo") =
      pyJoinWith ", " ((((pySplit "amputee,svo" ',').map pyStrip).filter
        (fun t => t != "")).map (fun t => (dictGetS specialMarksMapping t).getD t)) ∧
    map_value "bureau_3" "special_marks" (some "amputee,svo") = "Ампутант, Участник СВО" :=
  ⟨claim_C3_set_valued_rendering.2.1 "bureau_3" "special_marks" "amputee,svo"
      specialMarksMapping (by rfl) (by rfl) (by decide), by rfl⟩

theorem splitOnChar_joinCommaChars (parts : List (List Char)) (hne : parts ≠ [])
    (hc : ∀ p ∈ parts, (',' : Char) ∉ p) :
    splitOnChar ',' (joinCommaChars parts) = parts := by
  induction parts with
  | nil => exact absurd rfl hne
  | cons p rest ih =>
    cases rest with
    | nil => exact splitOnChar_of_not_mem ',' p (hc p (List.mem_cons_self p []))
    | cons q rest2 =>
      rw [show joinCommaChars (p :: q :: rest2) = p ++ ',' :: joinCommaChars (q :: rest2) from rfl]
      rw [splitOnChar_append ',' p _ (hc p (List.mem_cons_self p _))]
      rw [ih (by simp) (fun x hx => hc x (List.mem_cons_of_mem p hx))]

/-- Counterexample to C9 as stated: the payload supplying the special-marks
list `["amputee", ""]` (with a valid examination date) is accepted by
normalization, yet the stored special-marks string "amputee," contains an
empty token, so the stored value is not always an empty-token-free code
list. -/
theorem claim_C9_counterexample_empty_token :
    create_or_update_record_normalize
        [("mseDate", PyValue.str "2024-01-15"), ("specialMarks", PyValue.list ["amputee", ""])] =
      .ok [("mse_date", PyValue.date ⟨2024, 1, 15⟩),
           ("special_marks", PyValue.str "amputee,")] ∧
    noEmptyTokens "amputee," = false :=
  ⟨rfl, rfl⟩

/-- C9 (amended): a special-marks list is joined with commas, an empty list
becoming null; a non-empty special-marks string passes through unchanged
(so normalizing an already comma-joined string is idempotent) and the
empty string becomes null; and the joined string contains no empty token
provided every supplied list element is non-empty and comma-free — without
that proviso the stored string can contain empty tokens. -/
theorem claim_C9_special_marks_amended :
    (∀ l : List String, transformEntry "specialMarks" (PyValue.list l) =
      .ok (some ("special_marks",
        if l = [] then PyValue.none else PyValue.str (pyJoinComma l)))) ∧
    (∀ s : String, s ≠ "" →
      transformEntry "specialMarks" (PyValue.str s) =
        .ok (some ("special_marks", PyValue.str s))) ∧
    (transformEntry "specialMarks" (PyValue.str "") =
      .ok (some ("special_marks", PyValue.none))) ∧
    (∀ l : List String, l ≠ [] → (∀ t ∈ l, t ≠ "" ∧ (',' : Char) ∉ t.data) →
      noEmptyTokens (pyJoinComma l) = true) := by
  refine ⟨fun l => rfl, ?_, rfl, ?_⟩
  · intro s hs
    have base : transformEntry "specialMarks" (PyValue.str s) =
        .ok (some ("special_marks",
          if isNoneOrEmptyStr (PyValue.str s) then PyValue.none else PyValue.str s)) := rfl
    rw [base, if_neg]
    rintro (h | h)
    · exact PyValue.noConfusion h
    · exact hs (by injection h)
  · intro l hl hts
    have hmapne : l.map (·.data) ≠ [] := by
      intro h
      exact hl (List.map_eq_nil_iff.mp h)
    have hmapc : ∀ p ∈ l.map (·.data), (',' : Char) ∉ p := by
      intro p hp
      obtain ⟨t, ht, rfl⟩ := List.mem_map.mp hp
      exact (hts t ht).2
    have hne : ∀ p ∈ l.map (·.data), p ≠ [] := by
      intro p hp
      obtain ⟨t, ht, rfl⟩ := List.mem_map.mp hp
      intro hdata
      exact (hts t ht).1 (by cases t; simp_all)
    unfold noEmptyTokens pyJoinComma
    rw [show (String.mk (joinCommaChars (l.map (·.data)))).data =
        joinCommaChars (l.map (·.data)) from rfl]
    rw [splitOnChar_joinCommaChars (l.map (·.data)) hmapne hmapc]
    exact List.all_eq_true.mpr fun p hp => by
      simpa [List.isEmpty_iff] using hne p hp

/-- Witness for the amended C9: a well-formed code list joins to an
empty-token-free string, and normalizing an already comma-joined string
returns it unchanged. -/
theorem claim_C9_special_marks_amended_witness :
    transformEntry "specialMarks" (PyValue.str "amputee,svo") =
      .ok (some ("special_marks", PyValue.str "amputee,svo")) ∧
    noEmptyTokens (pyJoinComma ["amputee", "svo"]) = true :=
  ⟨claim_C9_special_marks_amended.2.1 "amputee,svo" (by decide),
   claim_C9_special_marks_amended.2.2.2 ["amputee", "svo"] (by decide) (by decide)⟩

theorem format_excel_date_str_eq (s : String) :
    format_excel_date (PyValue.str s) =
      (match parse_date_formats s with
       | some d => renderDotDMY d
       | _ => s) := rfl

/-- C10: `format_excel_date` is a total function into strings: null renders
as the empty string, native dates as `DD.MM.YYYY`, strings in any of the
three accepted formats as the `DD.MM.YYYY` form of the date they denote,
and every string matching none of the formats is returned verbatim, so a
bad stored value can never abort sheet rendering. -/
theorem claim_C10_format_excel_date_total :
    (format_excel_date PyValue.none = "") ∧
    (∀ d : PyDate, format_excel_date (PyValue.date d) = renderDotDMY d) ∧
    (∀ s d, parse_date_formats s = some d →
      format_excel_date (PyValue.str s) = renderDotDMY d) ∧
    (∀ s, parse_date_formats s = Option.none → format_excel_date (PyValue.str s) = s) ∧
    (∀ d : PyDate, ValidPyDate d →
      format_excel_date (PyValue.str (renderYMD d)) = renderDotDMY d ∧
      format_excel_date (PyValue.str (renderDotDMY d)) = renderDotDMY d ∧
      format_excel_date (PyValue.str (renderMDY d)) = renderDotDMY d) := by
  refine ⟨rfl, fun d => rfl, ?_, ?_, ?_⟩
  · intro s d h
    rw [format_excel_date_str_eq, h]
  · intro s h
    rw [format_excel_date_str_eq, h]
  · intro d hd
    refine ⟨?_, ?_, ?_⟩
    · rw [format_excel_date_str_eq, parse_render_ymd d hd]
    · rw [format_excel_date_str_eq, parse_render_dmy d hd]
    · rw [format_excel_date_str_eq, parse_render_mdy d hd]

/-- Witness for C10 at concrete inputs: a leap-day string renders through
the date path, and a malformed string is returned verbatim. -/
theorem claim_C10_format_excel_date_total_witness :
    format_excel_date (PyValue.str (renderDotDMY ⟨2024, 2, 29⟩)) =
      renderDotDMY ⟨2024, 2, 29⟩ ∧
    format_excel_date (PyValue.str "not-a-date") = "not-a-date" :=
  ⟨(claim_C10_format_excel_date_total.2.2.2.2 ⟨2024, 2, 29⟩ (by decide)).2.1,
   claim_C10_format_excel_date_total.2.2.2.1 "not-a-date" (by rfl)⟩

theorem create_excel_workbook_all_eq (records : List RecordDict) :
    create_excel_workbook records "all" = create_excel_workbook_allsheets records := by
  unfold create_excel_workbook
  rw [if_pos rfl]

/-- C4: for every record batch, the consolidated workbook consists of
exactly the 44 expected sheets — the all-records sheet first, then the
bureaus in ascending numeric order with the excluded set skipped, then the
expert panels in configured order — matching
`1 + (bureau_count - excluded_count) + expert_count`; every sheet name is
at most 31 characters; and the name sequence is a constant independent of
the records. -/
theorem claim_C4_workbook_sheet_names :
    ∀ records : List RecordDict,
      (create_excel_workbook records "all").map Prod.fst = allModeSheetNames ∧
      allModeSheetNames.length =
        1 + (settings_bureau_count - settings_excluded_bureaus.length) +
          settings_experts.length ∧
      allModeSheetNames.all (fun nm => decide (nm.length ≤ 31)) = true := by
  intro records
  refine ⟨?_, by decide, by decide⟩
  rw [create_excel_workbook_all_eq]
  unfold create_excel_workbook_allsheets
  simp only [List.map_cons, List.map_append, List.map_map, Function.comp]
  rfl

theorem pyEnumerate_length (n : Nat) (l : List RecordDict) :
    (pyEnumerate n l).length = l.length := by
  induction l generalizing n with
  | nil => rfl
  | cons r rest ih => simp [pyEnumerate, ih]

theorem dataRowCells_length (is_all is_expert : Bool) (seq : Nat) (r : RecordDict) :
    (dataRowCells is_all is_expert seq r).length =
      (worksheetHeaders is_all is_expert).length := by
  cases is_expert <;> rfl

/-- C5: on a non-empty batch the header row is the 23 shared columns
followed by the unit-type suffix — the five expert columns when the first
record's unit identifier starts with "expert_", the three bureau columns
otherwise — so the suffix choice is a function of the first record's unit
identifier alone. -/
theorem claim_C5_two_tier_header :
    ∀ (r : RecordDict) (rest : List RecordDict) (is_all : Bool),
      ((create_excel_worksheet (r :: rest) is_all).rows.getD 0 []).map (fun c => c.value) =
        (worksheetHeaders is_all (pyStartsWith (recBureauNumber r) "expert_")).map
          (fun h => CellVal.pv (PyValue.str h)) ∧
      worksheetHeaders is_all (pyStartsWith (recBureauNumber r) "expert_") =
        commonHeaders is_all ++
          (if pyStartsWith (recBureauNumber r) "expert_" then expertHeaderColumns
           else bureauHeaderColumns) ∧
      (commonHeaders is_all).length = 23 ∧
      expertHeaderColumns.length = 5 ∧
      bureauHeaderColumns.length = 3 := by
  intro r rest is_all
  refine ⟨?_, rfl, rfl, rfl, rfl⟩
  have hrow : (create_excel_worksheet (r :: rest) is_all).rows.getD 0 [] =
      (mkHeaderRow (worksheetHeaders is_all (pyStartsWith (recBureauNumber r) "expert_"))).map
        overwriteStyle := rfl
  rw [hrow]
  unfold mkHeaderRow
  simp [List.map_map, Function.comp, overwriteStyle]

/-- C6: building a sheet from an empty batch emits exactly two rows — the
header row and the merged placeholder row whose first cell reads
"Нет записей" — applies the default width 15 (150 tenths) to all 26
columns, and performs no per-record rendering. -/
theorem claim_C6_empty_batch_sheet :
    ∀ is_all : Bool,
      (create_excel_worksheet [] is_all).rows.length = 2 ∧
      (create_excel_worksheet [] is_all).rows =
        [mkHeaderRow (worksheetHeaders is_all false),
         placeholderRow (worksheetHeaders is_all false).length] ∧
      ((create_excel_worksheet [] is_all).rows.getD 1 []).getD 0 blankSCell =
        ⟨CellVal.pv (PyValue.str "Нет записей"), placeholderCellStyle⟩ ∧
      (create_excel_worksheet [] is_all).merges = [(2, 1, 2, 1)] ∧
      (create_excel_worksheet [] is_all).colWidthTenths = List.replicate 26 150 := by
  intro is_all
  exact ⟨rfl, rfl, rfl, rfl, rfl⟩

/-- Counterexample to C7 as stated: on a sheet built from a non-empty batch
the header row is not centered — the final styling pass overwrites the
header alignment to left — and on a sheet built from an empty batch no
freeze and no auto-filter are applied at all. -/
theorem claim_C7_counterexample_styles :
    (((create_excel_worksheet [recEx] false).rows.getD 0 []).getD 0 blankSCell).style.horizontal
        = "left" ∧
    ("left" : String) ≠ "center" ∧
    (create_excel_worksheet [] false).freezePanes = Option.none ∧
    (create_excel_worksheet [] false).autoFilterRef = Option.none := by
  exact ⟨rfl, by decide, rfl, rfl⟩

/-- C7 (amended): on every sheet built from a non-empty batch, the header
row is bold, wrapped, bordered and left-aligned (its centered alignment is
overwritten by the final cell-styling pass), the panes are frozen at "A2"
so the header stays visible, and the auto-filter spans the full used range
(all header and data rows, all columns); sheets built from an empty batch
keep a centered header but receive no freeze and no filter. -/
theorem claim_C7_header_styling_amended :
    ∀ (r : RecordDict) (rest : List RecordDict) (is_all : Bool),
      (∀ cell ∈ (create_excel_worksheet (r :: rest) is_all).rows.getD 0 [],
        cell.style.bold = true ∧ cell.style.wrapText = true ∧
        cell.style.bordered = true ∧ cell.style.horizontal = "left" ∧
        cell.style.vertical = "center") ∧
      (create_excel_worksheet (r :: rest) is_all).freezePanes = some "A2" ∧
      (create_excel_worksheet (r :: rest) is_all).autoFilterRef =
        some ("A1:" ++
          get_column_letter
            (worksheetHeaders is_all (pyStartsWith (recBureauNumber r) "expert_")).length ++
          toString (rest.length + 2)) ∧
      (create_excel_worksheet (r :: rest) is_all).rows.length = rest.length + 2 ∧
      (∀ row ∈ (create_excel_worksheet (r :: rest) is_all).rows,
        row.length =
          (worksheetHeaders is_all (pyStartsWith (recBureauNumber r) "expert_")).length) := by
  intro r rest is_all
  refine ⟨?_, rfl, rfl, ?_, ?_⟩
  · intro cell hc
    have hrow : (create_excel_worksheet (r :: rest) is_all).rows.getD 0 [] =
        (mkHeaderRow (worksheetHeaders is_all (pyStartsWith (recBureauNumber r) "expert_"))).map
          overwriteStyle := rfl
    rw [hrow] at hc
    unfold mkHeaderRow at hc
    simp only [List.map_map, List.mem_map, Function.comp] at hc
    obtain ⟨h, hh, rfl⟩ := hc
    exact ⟨rfl, rfl, rfl, rfl, rfl⟩
  · show (worksheetStyledRows is_all (pyStartsWith (recBureauNumber r) "expert_")
      (r :: rest)).length = rest.length + 2
    unfold worksheetStyledRows worksheetRawRows
    simp [pyEnumerate_length]
  · intro row hrow
    have hr : (create_excel_worksheet (r :: rest) is_all).rows =
        worksheetStyledRows is_all (pyStartsWith (recBureauNumber r) "expert_") (r :: rest) :=
      rfl
    rw [hr] at hrow
    unfold worksheetStyledRows worksheetRawRows at hrow
    simp only [List.map_cons, List.map_map, List.mem_cons, List.mem_map, Function.comp]
      at hrow
    rcases hrow with rfl | ⟨p, hp, rfl⟩
    · simp [mkHeaderRow, worksheetHeaders]
    · simp [dataRowCells_length]

/-- Witness for the amended C7: the style facts at a concrete header cell
of a concrete non-empty sheet, together with the freeze fact. -/
theorem claim_C7_header_styling_amended_witness :
    (SCell.mk (CellVal.pv (PyValue.str "№ п/п"))
        { bold := true, horizontal := "left", vertical := "center",
          wrapText := true, bordered := true }).style.bold = true ∧
    (create_excel_worksheet [recEx] false).freezePanes = some "A2" :=
  ⟨((claim_C7_header_styling_amended recEx [] false).1
      ⟨CellVal.pv (PyValue.str "№ п/п"),
       { bold := true, horizontal := "left", vertical := "center",
         wrapText := true, bordered := true }⟩ (by decide)).1,
   (claim_C7_header_styling_amended recEx [] false).2.1⟩

/-- Counterexample to C8 as stated: on a concrete one-record sheet the
first column's longest rendered string has length 5 ("№ п/п"), the built
width is (5 + 2) * 1.2 = 8.4 (84 tenths), but the claimed formula
5 * 1.2 + 2 = 8.0 (80 tenths) differs: padding is added before the 1.2
expansion, not after. -/
theorem claim_C8_counterexample_width :
    colMaxLen (create_excel_worksheet [recEx] false).rows 0 = 5 ∧
    (create_excel_worksheet [recEx] false).colWidthTenths.getD 0 0 = 84 ∧
    specClaimedWidthTenths 5 = 80 ∧
    (84 : Nat) ≠ 80 := by
  exact ⟨rfl, rfl, rfl, by decide⟩

/-- C8 (amended): for every non-empty batch and every column, the final
width is (longest rendered length in the column, header included, plus 2
padding units) times the 1.2 expansion factor, capped at 50 — in tenths,
min((max + 2) * 12, 500). -/
theorem claim_C8_column_width_amended :
    ∀ (r : RecordDict) (rest : List RecordDict) (is_all : Bool) (j : Nat),
      j < (worksheetHeaders is_all (pyStartsWith (recBureauNumber r) "expert_")).length →
      (create_excel_worksheet (r :: rest) is_all).colWidthTenths.getD j 0 =
        min ((colMaxLen (create_excel_worksheet (r :: rest) is_all).rows j + 2) * 12) 500 := by
  intro r rest is_all j hj
  have hw : (create_excel_worksheet (r :: rest) is_all).colWidthTenths =
      (List.range (worksheetHeaders is_all (pyStartsWith (recBureauNumber r) "expert_")).length).map
        (autoWidthTenths
          (worksheetStyledRows is_all (pyStartsWith (recBureauNumber r) "expert_") (r :: rest))) :=
    rfl
  rw [hw, List.getD_eq_getElem?_getD, List.getElem?_map, List.getElem?_range hj]
  rfl

/-- Witness for the amended C8 at the concrete one-record sheet and its
first column. -/
theorem claim_C8_column_width_amended_witness :
    (create_excel_worksheet [recEx] false).colWidthTenths.getD 0 0 =
      min ((colMaxLen (create_excel_worksheet [recEx] false).rows 0 + 2) * 12) 500 :=
  claim_C8_column_width_amended recEx [] false 0 (by decide)
